import Mathlib

/-!
Shallow embedding of the duotaire-server room engine.

The definitions below translate, function by function, the TypeScript sources
`src/schema/CardSchema.ts`, `src/schema/PlayerSchema.ts`,
`src/schema/DuoTaireState.ts` and `src/rooms/DuoTaireRoom.ts`.

Modelling conventions:
  - JS arrays (ArraySchema) become Lean `List`s with the same orientation:
    index 0 is the bottom, `push` appends at the end, the "top" card is the
    last element (`getLast?`), `pop` removes the last element (`dropLast`).
  - The Colyseus `MapSchema` of players becomes an insertion-ordered
    association list `List (String × PlayerSchema)`; `players.get(id)` is
    `List.lookup`, iteration over `players.values()` is iteration over the
    list, and in-place mutation of a player object becomes replacing the
    corresponding entry.
  - JS numbers used as indices (`currentPlayer`, `index`, message indices,
    `winner`) become `Int`, so that expressions such as `1 - index` keep
    their JS meaning on out-of-range values.
  - `Date.now()` becomes an explicit `now : Nat` argument on every operation
    that reads the clock.
  - `this.broadcast(...)` of game-over messages becomes an explicit list of
    `Broadcast` events returned next to the new state; timers (`clock.
    setTimeout`, `Delayed`) carry no game state and are not modelled.
-/

namespace DuoTaire

/-- A playing card: `CardSchema` from src/schema/CardSchema.ts, a pair of a
suit string and a rank string. -/
structure CardSchema where
  suit : String
  rank : String
deriving DecidableEq, Repr

/-- The rank-value table of `CardSchema.getRankValue`. -/
def rankValues : List (String × Nat) :=
  [("A", 1), ("2", 2), ("3", 3), ("4", 4), ("5", 5),
   ("6", 6), ("7", 7), ("8", 8), ("9", 9), ("10", 10),
   ("J", 11), ("Q", 12), ("K", 13)]

/-- Source `getRankValue()`: table lookup, `|| 0` for unknown ranks. -/
def CardSchema.getRankValue (c : CardSchema) : Nat :=
  (rankValues.lookup c.rank).getD 0

/-- Source `getColor()`: red for hearts and diamonds, black otherwise. -/
def CardSchema.getColor (c : CardSchema) : String :=
  if c.suit = "♥" ∨ c.suit = "♦" then "red" else "black"

/-- Source `canPlaceOn(other)`: center-pile placement, descending by one and
alternating color; a falsy `other.rank` accepts any card.  The `!other`
branch of the source is handled at every call site (the callers test the
top card for null before calling). -/
def CardSchema.canPlaceOn (c other : CardSchema) : Bool :=
  if other.rank = "" then true
  else decide ((c.getRankValue : Int) = (other.getRankValue : Int) - 1
    ∧ c.getColor ≠ other.getColor)

/-- Source `canPlaceOnFoundation(foundationTop, foundationSuit)`: same suit, an Ace
on an empty foundation, otherwise exactly one above the top card. -/
def CardSchema.canPlaceOnFoundation (c : CardSchema)
    (foundationTop : Option CardSchema) (foundationSuit : String) : Bool :=
  if c.suit ≠ foundationSuit then false
  else
    match foundationTop with
    | none => decide (c.rank = "A")
    | some t => decide (c.getRankValue = t.getRankValue + 1)

/-- Source `canPlayOnOpponentDiscard(discardTop)`: same rank with a different suit,
or same suit at rank distance one. -/
def CardSchema.canPlayOnOpponentDiscard (c discardTop : CardSchema) : Bool :=
  if discardTop.rank = "" then false
  else if c.rank = discardTop.rank ∧ c.suit ≠ discardTop.suit then true
  else if c.suit = discardTop.suit then
    decide (((c.getRankValue : Int) - (discardTop.getRankValue : Int)).natAbs = 1)
  else false

/-- Source `toString()`: rank followed by suit. -/
def CardSchema.toStr (c : CardSchema) : String :=
  c.rank ++ c.suit

/-- Source `clone()`: a fresh card with the same suit and rank. -/
def CardSchema.clone (c : CardSchema) : CardSchema :=
  { suit := c.suit, rank := c.rank }

/-- A seat record: `PlayerSchema` from src/schema/PlayerSchema.ts.  The
fields are exactly the schema fields; note the discard pile's field is
named `discard` (there is no `discardPile` and no `drawnCard` field on the
player). -/
structure PlayerSchema where
  index : Int
  sessionId : String
  name : String
  connected : Bool
  timer : Nat
  deck : List CardSchema
  discard : List CardSchema
deriving DecidableEq, Repr

/-- Source `getDiscardTop()`. -/
def PlayerSchema.getDiscardTop (p : PlayerSchema) : Option CardSchema :=
  p.discard.getLast?

/-- Source `getDeckTop()`. -/
def PlayerSchema.getDeckTop (p : PlayerSchema) : Option CardSchema :=
  p.deck.getLast?

/-- Source `drawCard()`: pops the deck top; when the deck is empty and the discard
holds at least two cards, first recycles the discard under its top card
back into the deck (pop the top, shift the rest front-to-back into the new
deck, put the top back) and then pops.  Returns the drawn card together
with the player record after the in-place mutations; on the failure path
(deck empty, discard of at most one card) the source mutates nothing. -/
def PlayerSchema.drawCardFn (p : PlayerSchema) : Option CardSchema × PlayerSchema :=
  if p.deck.isEmpty then
    if p.discard.length ≤ 1 then (none, p)
    else
      let newDeck := p.discard.dropLast
      (newDeck.getLast?,
       { p with deck := newDeck.dropLast, discard := p.discard.getLast?.toList })
  else
    (p.deck.getLast?, { p with deck := p.deck.dropLast })

/-- Source `addToDiscard(card)`. -/
def PlayerSchema.addToDiscard (p : PlayerSchema) (c : CardSchema) : PlayerSchema :=
  { p with discard := p.discard ++ [c] }

/-- Source `hasCards()`. -/
def PlayerSchema.hasCards (p : PlayerSchema) : Bool :=
  decide (0 < p.deck.length ∨ 0 < p.discard.length)

/-- Source `getTotalCards()`. -/
def PlayerSchema.getTotalCards (p : PlayerSchema) : Nat :=
  p.deck.length + p.discard.length

/-- A foundation pile: `FoundationSchema` from src/schema/DuoTaireState.ts. -/
structure FoundationSchema where
  suit : String
  cards : List CardSchema
deriving DecidableEq, Repr

/-- Source `FoundationSchema.getTopCard()`. -/
def FoundationSchema.getTopCard (f : FoundationSchema) : Option CardSchema :=
  f.cards.getLast?

/-- Source `FoundationSchema.isComplete()`: thirteen cards. -/
def FoundationSchema.isComplete (f : FoundationSchema) : Bool :=
  decide (f.cards.length = 13)

/-- The room state: `DuoTaireState` from src/schema/DuoTaireState.ts.  A
`CenterPileSchema` is a record holding one card array, so a center pile is
modelled directly as that card list. -/
structure DuoTaireState where
  roomCode : String
  phase : String
  currentPlayer : Int
  gameOver : Bool
  winner : Int
  drawnCard : Option CardSchema
  hasMovedThisTurn : Bool
  turnStartTime : Nat
  zapGracePeriod : Bool
  zapGraceEndTime : Nat
  lastMoveCard : String
  lastMoveType : String
  players : List (String × PlayerSchema)
  centerPiles : List (List CardSchema)
  foundations : List FoundationSchema
  lastUpdateTime : Nat
  stateVersion : Nat
deriving DecidableEq, Repr

/-- Source `incrementVersion()`: bump `stateVersion` and stamp `lastUpdateTime`
with the current clock. -/
def DuoTaireState.incrementVersion (s : DuoTaireState) (now : Nat) : DuoTaireState :=
  { s with stateVersion := s.stateVersion + 1, lastUpdateTime := now }

/-- Source `getPlayerByIndex(index)`: first player in iteration order whose seat
index matches. -/
def DuoTaireState.getPlayerByIndex (s : DuoTaireState) (i : Int) : Option PlayerSchema :=
  (s.players.find? (fun kv => kv.2.index == i)).map Prod.snd

/-- Source `getPlayerBySession(sessionId)`: map lookup. -/
def DuoTaireState.getPlayerBySession (s : DuoTaireState) (sid : String) : Option PlayerSchema :=
  s.players.lookup sid

/-- Source `getOpponent()`: the player at seat `1 - currentPlayer`. -/
def DuoTaireState.getOpponent (s : DuoTaireState) : Option PlayerSchema :=
  s.getPlayerByIndex (1 - s.currentPlayer)

/-- Source `checkWin()`: all four foundations complete. -/
def DuoTaireState.checkWin (s : DuoTaireState) : Bool :=
  s.foundations.all (·.isComplete)

/-! Helpers that model JS in-place mutation of a list element, and of the
player object returned by `getPlayerByIndex` / `players.get`. -/

/-- Replace the element at position `n` by `f` of it (in-place array
element mutation). -/
def modifyAt (n : Nat) (f : α → α) : List α → List α
  | [] => []
  | a :: as =>
    match n with
    | 0 => f a :: as
    | n + 1 => a :: modifyAt n f as

/-- Mutate the first entry satisfying `pred` (the object that iteration,
as in `getPlayerByIndex`, returned a reference to). -/
def updateFirst (pred : String × PlayerSchema → Bool)
    (f : PlayerSchema → PlayerSchema) :
    List (String × PlayerSchema) → List (String × PlayerSchema)
  | [] => []
  | kv :: rest =>
    if pred kv then (kv.1, f kv.2) :: rest else kv :: updateFirst pred f rest

/-- Mutate the player object returned by `getPlayerByIndex i`. -/
def DuoTaireState.updatePlayerByIndex (s : DuoTaireState) (i : Int)
    (f : PlayerSchema → PlayerSchema) : DuoTaireState :=
  { s with players := updateFirst (fun kv => kv.2.index == i) f s.players }

/-- Mutate the player object returned by `players.get(sid)`. -/
def DuoTaireState.updatePlayerBySession (s : DuoTaireState) (sid : String)
    (f : PlayerSchema → PlayerSchema) : DuoTaireState :=
  { s with players := updateFirst (fun kv => kv.1 == sid) f s.players }

/-! The room engine: `DuoTaireRoom` from src/rooms/DuoTaireRoom.ts. -/

/-- The `play_card` client message. -/
structure PlayCardMessage where
  fromType : String
  fromIndex : Int
  toType : String
  toIndex : Int
deriving DecidableEq, Repr

/-- The `sequence_move` client message. -/
structure SequenceMoveMessage where
  fromCenter : Int
  fromCardIndex : Int
  toCenter : Int
deriving DecidableEq, Repr

/-- An outbound broadcast emitted by the engine (only the game-over
broadcast of `endGame` carries game results). -/
inductive Broadcast where
  | gameOver (winner : Int) (reason : String)
deriving DecidableEq, Repr

/-- Source `ZAP_GRACE_PERIOD`: 3000 ms. -/
def ZAP_GRACE_PERIOD : Nat := 3000

/-- Source `closeZapGracePeriod()`: clears the flag (the timer object carries no
game state). -/
def closeZapGracePeriod (s : DuoTaireState) : DuoTaireState :=
  { s with zapGracePeriod := false }

/-- Source `startZapGracePeriod()`: sets the flag and the deadline. -/
def startZapGracePeriod (s : DuoTaireState) (now : Nat) : DuoTaireState :=
  { s with zapGracePeriod := true, zapGraceEndTime := now + ZAP_GRACE_PERIOD }

/-- Source `endTurn()`: swap `currentPlayer`, clear `hasMovedThisTurn`, restart the
turn clock. -/
def endTurn (s : DuoTaireState) (now : Nat) : DuoTaireState :=
  { s with currentPlayer := 1 - s.currentPlayer,
           hasMovedThisTurn := false,
           turnStartTime := now }

/-- Source `endGame(winnerIndex, reason)`: finish the game, bump the version and
broadcast `game_over`. -/
def endGame (s : DuoTaireState) (winnerIndex : Int) (reason : String)
    (now : Nat) : DuoTaireState × List Broadcast :=
  let s := { s with phase := "finished", gameOver := true, winner := winnerIndex }
  let s := s.incrementVersion now
  (s, [Broadcast.gameOver winnerIndex reason])

/-- Source `getCardFromSource(fromType, fromIndex)`: the drawn card, or the top of
a center pile after a bounds check. -/
def getCardFromSource (s : DuoTaireState) (fromType : String)
    (fromIndex : Int) : Option CardSchema :=
  if fromType = "drawn" then s.drawnCard
  else if fromType = "center" then
    if 0 ≤ fromIndex ∧ fromIndex < 5 then
      ((s.centerPiles.get? fromIndex.toNat).getD []).getLast?
    else none
  else none

/-- Source `removeCardFromSource(fromType, fromIndex)`: clear the drawn card, or
pop the addressed center pile. -/
def removeCardFromSource (s : DuoTaireState) (fromType : String)
    (fromIndex : Int) : DuoTaireState :=
  if fromType = "drawn" then { s with drawnCard := none }
  else if fromType = "center" then
    if 0 ≤ fromIndex ∧ fromIndex < 5 then
      { s with centerPiles := modifyAt fromIndex.toNat List.dropLast s.centerPiles }
    else s
  else s

/-- Source `playToFoundation(card, foundationIndex, fromType, fromIndex)`.  The
room's constructor (`initializePiles`) always creates exactly four
foundations, so the `foundations[foundationIndex]` access is in range once
the explicit bound check passed; a state violating that shape is mapped to
a failed move. -/
def playToFoundation (s : DuoTaireState) (card : CardSchema)
    (foundationIndex : Int) (fromType : String) (fromIndex : Int)
    (now : Nat) : Bool × DuoTaireState :=
  if foundationIndex < 0 ∨ 4 ≤ foundationIndex then (false, s)
  else
    match s.foundations.get? foundationIndex.toNat with
    | none => (false, s)
    | some foundation =>
      if ¬ (card.canPlaceOnFoundation foundation.getTopCard foundation.suit) then
        (false, s)
      else
        let s := closeZapGracePeriod s
        let s := removeCardFromSource s fromType fromIndex
        let newFoundations := modifyAt foundationIndex.toNat
          (fun f => { f with cards := f.cards ++ [card.clone] }) s.foundations
        let s := { s with foundations := newFoundations }
        let s := { s with lastMoveCard := card.toStr, lastMoveType := "foundation" }
        let s := startZapGracePeriod s now
        (true, s)

/-- Source `playToCenter(card, centerIndex, fromType, fromIndex)`: an empty pile
accepts anything, otherwise `canPlaceOn` against the top. -/
def playToCenter (s : DuoTaireState) (card : CardSchema)
    (centerIndex : Int) (fromType : String) (fromIndex : Int) :
    Bool × DuoTaireState :=
  if centerIndex < 0 ∨ 5 ≤ centerIndex then (false, s)
  else
    let pile := (s.centerPiles.get? centerIndex.toNat).getD []
    let ok : Bool :=
      match pile.getLast? with
      | some t => card.canPlaceOn t
      | none => true
    if ¬ ok then (false, s)
    else
      let s := closeZapGracePeriod s
      let s := removeCardFromSource s fromType fromIndex
      let newPiles := modifyAt centerIndex.toNat
        (fun cs => cs ++ [card.clone]) s.centerPiles
      let s := { s with centerPiles := newPiles }
      (true, s)

/-- Source `playToOpponentDiscard(card, fromType, fromIndex)`: the opponent of the
current player must exist and have a non-empty discard, and
`canPlayOnOpponentDiscard` must accept the card against its top. -/
def playToOpponentDiscard (s : DuoTaireState) (card : CardSchema)
    (fromType : String) (fromIndex : Int) : Bool × DuoTaireState :=
  match s.getOpponent with
  | none => (false, s)
  | some opponent =>
    match opponent.getDiscardTop with
    | none => (false, s)
    | some discardTop =>
      if ¬ card.canPlayOnOpponentDiscard discardTop then (false, s)
      else
        let s := closeZapGracePeriod s
        let s := removeCardFromSource s fromType fromIndex
        let s := s.updatePlayerByIndex (1 - s.currentPlayer)
          (fun p => p.addToDiscard card.clone)
        (true, s)

/-- Source `playToOwnDiscard(card, fromType, fromIndex)`: only from the drawn
card; appends to the current player's discard and ends the turn. -/
def playToOwnDiscard (s : DuoTaireState) (card : CardSchema)
    (fromType : String) (fromIndex : Int) (now : Nat) : Bool × DuoTaireState :=
  if fromType ≠ "drawn" then (false, s)
  else
    match s.getPlayerByIndex s.currentPlayer with
    | none => (false, s)
    | some _ =>
      let s := closeZapGracePeriod s
      let s := removeCardFromSource s fromType fromIndex
      let s := s.updatePlayerByIndex s.currentPlayer
        (fun p => p.addToDiscard card.clone)
      let s := endTurn s now
      (true, s)

/-- The tail of `handlePlayCard` after the `switch`: on success, set
`hasMovedThisTurn`, bump the version and run the win check (`endGame` on a
completed board); on failure, return the untouched state. -/
def finishPlay (res : Bool × DuoTaireState) (now : Nat) :
    Bool × DuoTaireState × List Broadcast :=
  if res.1 then
    let s1 := { res.2 with hasMovedThisTurn := true }
    let s1 := s1.incrementVersion now
    if s1.checkWin then
      let r := endGame s1 s1.currentPlayer "All foundations complete!" now
      (true, r.1, r.2)
    else (true, s1, [])
  else (false, res.2, [])

/-- The `switch (toType)` of `handlePlayCard`: route the move to the
destination-specific helper; an unknown destination leaves `success`
false. -/
def playSwitch (s : DuoTaireState) (card : CardSchema)
    (m : PlayCardMessage) (now : Nat) : Bool × DuoTaireState :=
  if m.toType = "foundation" then
    playToFoundation s card m.toIndex m.fromType m.fromIndex now
  else if m.toType = "center" then
    playToCenter s card m.toIndex m.fromType m.fromIndex
  else if m.toType = "opponentDiscard" then
    playToOpponentDiscard s card m.fromType m.fromIndex
  else if m.toType = "ownDiscard" then
    playToOwnDiscard s card m.fromType m.fromIndex now
  else (false, s)

/-- Source `handlePlayCard(client, message)`.  The returned boolean is the
`success` variable of the source; the broadcast list carries the
`game_over` message when the move wins the game. -/
def handlePlayCard (s : DuoTaireState) (sid : String)
    (m : PlayCardMessage) (now : Nat) : Bool × DuoTaireState × List Broadcast :=
  match s.getPlayerBySession sid with
  | none => (false, s, [])
  | some player =>
    if player.index ≠ s.currentPlayer then (false, s, [])
    else
      match getCardFromSource s m.fromType m.fromIndex with
      | none => (false, s, [])
      | some card => finishPlay (playSwitch s card m now) now

/-- Source `handleDrawCard(client)`: turn and no-drawn-card checks, close the ZAP
window, then `player.drawCard()`; on a successful draw the card becomes
`drawnCard` and the version is bumped.  On the failure path of `drawCard`
the player object was not mutated, so only the closed ZAP window remains. -/
def handleDrawCard (s : DuoTaireState) (sid : String) (now : Nat) : DuoTaireState :=
  match s.getPlayerBySession sid with
  | none => s
  | some player =>
    if player.index ≠ s.currentPlayer then s
    else if s.drawnCard.isSome then s
    else
      let s1 := closeZapGracePeriod s
      match player.drawCardFn with
      | (none, _) => s1
      | (some card, p1) =>
        let s2 := s1.updatePlayerBySession sid (fun _ => p1)
        ({ s2 with drawnCard := some card }).incrementVersion now

/-- Source `handleZap(client)`: requires only an open ZAP window and an existing
opponent seat for the sender; closes the window and bumps the version.  No
cards move (the penalty is left unimplemented in the source). -/
def handleZap (s : DuoTaireState) (sid : String) (now : Nat) : DuoTaireState :=
  match s.getPlayerBySession sid with
  | none => s
  | some player =>
    if ¬ s.zapGracePeriod then s
    else
      match s.getPlayerByIndex (1 - player.index) with
      | none => s
      | some _ => (closeZapGracePeriod s).incrementVersion now

/-- Source `getValidSequence(pile, startIndex)` inner loop: extend the chain while
each following card `canPlaceOn` its predecessor, stopping at the first
break. -/
def takeChain (prev : CardSchema) : List CardSchema → List CardSchema
  | [] => []
  | c :: rest => if c.canPlaceOn prev then c :: takeChain c rest else []

/-- Source `getValidSequence(pile, startIndex)`: the chain starting at
`startIndex`, valid only when it extends to the end of the pile. -/
def getValidSequence (pile : List CardSchema) (startIndex : Nat) : List CardSchema :=
  let seq :=
    match pile.drop startIndex with
    | [] => []
    | c :: rest => c :: takeChain c rest
  if startIndex + seq.length ≠ pile.length then [] else seq

/-- Source `handleSequenceMove(client, message)`: splices a valid
descending-alternating run ending at the pile top onto another center
pile. -/
def handleSequenceMove (s : DuoTaireState) (sid : String)
    (m : SequenceMoveMessage) (now : Nat) : DuoTaireState :=
  match s.getPlayerBySession sid with
  | none => s
  | some player =>
    if player.index ≠ s.currentPlayer then s
    else if m.fromCenter = m.toCenter then s
    else if m.fromCenter < 0 ∨ 5 ≤ m.fromCenter ∨ m.toCenter < 0 ∨ 5 ≤ m.toCenter then s
    else
      let fromPile := (s.centerPiles.get? m.fromCenter.toNat).getD []
      let toPile := (s.centerPiles.get? m.toCenter.toNat).getD []
      if m.fromCardIndex < 0 ∨ (fromPile.length : Int) ≤ m.fromCardIndex then s
      else
        let sequence := getValidSequence fromPile m.fromCardIndex.toNat
        match sequence with
        | [] => s
        | bottomCard :: _ =>
          let ok : Bool :=
            match toPile.getLast? with
            | some targetTop => bottomCard.canPlaceOn targetTop
            | none => true
          if ¬ ok then s
          else
            let s := closeZapGracePeriod s
            let cardsToMove := fromPile.drop m.fromCardIndex.toNat
            let piles1 := modifyAt m.fromCenter.toNat
              (fun _ => fromPile.take m.fromCardIndex.toNat) s.centerPiles
            let piles2 := modifyAt m.toCenter.toNat
              (fun cs => cs ++ cardsToMove) piles1
            let s := { s with centerPiles := piles2, hasMovedThisTurn := true }
            s.incrementVersion now

/-- The `request_state` message handler registered in `onCreate`: its whole
body is one call to `incrementVersion()`. -/
def handleRequestState (s : DuoTaireState) (now : Nat) : DuoTaireState :=
  s.incrementVersion now

/-- Source `onLeave(client)`: mark the seat disconnected; during play, end the
game with `getOpponent()` (the opponent of the current player) as the
winner. -/
def onLeave (s : DuoTaireState) (sid : String) (now : Nat) :
    DuoTaireState × List Broadcast :=
  match s.getPlayerBySession sid with
  | none => (s, [])
  | some _ =>
    let s := s.updatePlayerBySession sid (fun p => { p with connected := false })
    if s.phase = "playing" then
      match s.getOpponent with
      | some opponent => endGame s opponent.index "Opponent disconnected" now
      | none => (s, [])
    else (s, [])

/-- One player entry of the full-state JSON snapshot built by
`getFullStateJSON`. -/
structure PlayerSnapshot where
  index : Int
  sessionId : String
  name : String
  deckSize : Nat
  discardPile : List CardSchema
  drawnCard : Option CardSchema
deriving DecidableEq, Repr

/-- The full-state JSON snapshot built by `getFullStateJSON` (the object
broadcast as `game_started`). -/
structure StateSnapshot where
  phase : String
  currentPlayer : Int
  roomCode : String
  version : Nat
  players : List PlayerSnapshot
  centerPiles : List (List CardSchema)
  foundations : List (String × List CardSchema)
deriving DecidableEq, Repr

/-- The JS `x || d` default on strings: falsy (empty) strings are replaced. -/
def jsOrString (x d : String) : String :=
  if x = "" then d else x

/-- One player entry of `getFullStateJSON`.  The source reads
`player?.discardPile` and `player?.drawnCard`, but `PlayerSchema` declares
no field of either name (its discard pile field is `discard`, and the drawn
card lives on the room state, not the player), so both property accesses
evaluate to `undefined`; `serializeCardArray(undefined)` returns `[]` and
`serializeCard(undefined)` returns `null`.  `serializeCard` maps a card to
its suit/rank pair and `serializeCardArray` keeps every (always truthy)
card, so on real fields they are the identity. -/
def serializePlayer (player : Option PlayerSchema) (idx : Int)
    (defaultName : String) : PlayerSnapshot :=
  { index := idx,
    sessionId := jsOrString ((player.map (·.sessionId)).getD "") "",
    name := jsOrString ((player.map (·.name)).getD "") defaultName,
    deckSize := (player.map (·.deck.length)).getD 0,
    discardPile := [],
    drawnCard := none }

/-- Source `getFullStateJSON()`: the snapshot object broadcast to both clients.
Missing piles or foundations are serialized as empty, exactly as the
source's defensive loops do. -/
def getFullStateJSON (s : DuoTaireState) : StateSnapshot :=
  let player0 := s.getPlayerByIndex 0
  let player1 := s.getPlayerByIndex 1
  let centerPilesData := (List.range 5).map (fun i => (s.centerPiles.get? i).getD [])
  let foundationsData := (List.range 4).map (fun i =>
    match s.foundations.get? i with
    | some f => (jsOrString f.suit "", f.cards)
    | none => ("", []))
  { phase := s.phase,
    currentPlayer := s.currentPlayer,
    roomCode := s.roomCode,
    version := s.stateVersion,
    players := [serializePlayer player0 0 "Player 1",
                serializePlayer player1 1 "Player 2"],
    centerPiles := centerPilesData,
    foundations := foundationsData }

/-- All intents a joined client can send to the room (the message handlers
registered in `onCreate`). -/
inductive Intent where
  | playCard (m : PlayCardMessage)
  | drawCard
  | sequenceMove (m : SequenceMoveMessage)
  | zap
  | requestState
deriving DecidableEq, Repr

/-- Dispatch of one client intent to its handler. -/
def applyIntent (s : DuoTaireState) (sid : String) (i : Intent) (now : Nat) :
    DuoTaireState × List Broadcast :=
  match i with
  | .playCard m =>
    let r := handlePlayCard s sid m now
    (r.2.1, r.2.2)
  | .drawCard => (handleDrawCard s sid now, [])
  | .sequenceMove m => (handleSequenceMove s sid m now, [])
  | .zap => (handleZap s sid now, [])
  | .requestState => (handleRequestState s now, [])

/-! Concrete fixtures used by witnesses and counterexamples.  They describe
small rooms of the shape `onCreate`/`onJoin`/`startGame` produce: two seated
players, five center piles, four suit foundations, `phase = "playing"`. -/

/-- The thirteen rank strings in deal order. -/
def rankStrings : List String :=
  ["A", "2", "3", "4", "5", "6", "7", "8", "9", "10", "J", "Q", "K"]

/-- A complete 13-card foundation content for one suit. -/
def fullSuitCards (su : String) : List CardSchema :=
  rankStrings.map (fun r => { suit := su, rank := r })

/-- Host seat fixture. -/
def p0Base : PlayerSchema :=
  { index := 0, sessionId := "s0", name := "Host", connected := true,
    timer := 0, deck := [{ suit := "♠", rank := "A" }], discard := [] }

/-- Guest seat fixture. -/
def p1Base : PlayerSchema :=
  { index := 1, sessionId := "s1", name := "Guest", connected := true,
    timer := 0, deck := [{ suit := "♣", rank := "A" }],
    discard := [{ suit := "♦", rank := "5" }] }

/-- A small mid-game room: playing phase, host to move, no drawn card, no
open ZAP window. -/
def sBase : DuoTaireState :=
  { roomCode := "ABCDEF", phase := "playing", currentPlayer := 0,
    gameOver := false, winner := -1, drawnCard := none,
    hasMovedThisTurn := false, turnStartTime := 0,
    zapGracePeriod := false, zapGraceEndTime := 0,
    lastMoveCard := "", lastMoveType := "",
    players := [("s0", p0Base), ("s1", p1Base)],
    centerPiles := [[], [], [], [], []],
    foundations := [{ suit := "♠", cards := [] }, { suit := "♣", cards := [] },
                    { suit := "♥", cards := [] }, { suit := "♦", cards := [] }],
    lastUpdateTime := 0, stateVersion := 5 }

/-- A host seat with an empty deck and a single discard card. -/
def p0EmptyDeck : PlayerSchema :=
  { p0Base with
    deck := [],
    discard := [{ suit := "♥", rank := "7" }] }

/-- A room where the host must recycle to draw but holds only one discard
card, while a ZAP window is open. -/
def sDrawFail : DuoTaireState :=
  { sBase with
    zapGracePeriod := true,
    players := [("s0", p0EmptyDeck), ("s1", p1Base)] }

/-- A host seat with an empty deck and two discard cards, ready for a
recycle-and-draw. -/
def p0Recycle : PlayerSchema :=
  { p0Base with
    deck := [],
    discard := [{ suit := "♥", rank := "7" }, { suit := "♣", rank := "9" }] }

/-- A room where the host's next draw recycles the discard pile. -/
def sDrawRecycle : DuoTaireState :=
  { sBase with
    players := [("s0", p0Recycle), ("s1", p1Base)] }

/-- A room where the host holds a drawn 7♥, about to end the turn by
discarding it. -/
def sDrawn7 : DuoTaireState :=
  { sBase with drawnCard := some { suit := "♥", rank := "7" } }

/-- The `play_card` message discarding the drawn card. -/
def mOwnDiscard : PlayCardMessage :=
  { fromType := "drawn", fromIndex := 0, toType := "ownDiscard", toIndex := 0 }

/-- A room where center pile 0 carries 3♠ under 2♠ and the spade foundation
already holds A♠, so the pile top can go to the foundation twice in a
row. -/
def sTwice : DuoTaireState :=
  { sBase with
    centerPiles := [[{ suit := "♠", rank := "3" }, { suit := "♠", rank := "2" }],
                    [], [], [], []],
    foundations := [{ suit := "♠", cards := [{ suit := "♠", rank := "A" }] },
                    { suit := "♣", cards := [] },
                    { suit := "♥", cards := [] },
                    { suit := "♦", cards := [] }] }

/-- The `play_card` message moving the top of center pile 0 onto
foundation 0. -/
def mCenterToFoundation : PlayCardMessage :=
  { fromType := "center", fromIndex := 0, toType := "foundation", toIndex := 0 }

/-- A room one K♦ short of the win: three foundations complete, the
diamond foundation at queen, K♦ drawn. -/
def sWin : DuoTaireState :=
  { sBase with
    drawnCard := some { suit := "♦", rank := "K" },
    foundations := [{ suit := "♠", cards := fullSuitCards "♠" },
                    { suit := "♣", cards := fullSuitCards "♣" },
                    { suit := "♥", cards := fullSuitCards "♥" },
                    { suit := "♦", cards := (fullSuitCards "♦").take 12 }] }

/-- The winning `play_card` message: drawn K♦ onto the diamond
foundation. -/
def mWinning : PlayCardMessage :=
  { fromType := "drawn", fromIndex := 0, toType := "foundation", toIndex := 3 }

/-- C7.  `canPlaceOnFoundation(c, foundation)` holds exactly when the suit
matches the foundation's suit and either the foundation is empty and the
card is an Ace, or a top card exists and the card's rank value is one above
the top's.  Confirms the spec's placement predicate (reading its
`AND (empty ⇒ A) OR (top ⇒ succ)` as the suit condition conjoined with the
case split on emptiness, the only reading under which the predicate is not
vacuous on empty foundations). -/
theorem c7_canPlaceOnFoundation_spec (c : CardSchema)
    (top : Option CardSchema) (suit : String) :
    c.canPlaceOnFoundation top suit = true ↔
      (c.suit = suit ∧
        ((top = none ∧ c.rank = "A") ∨
         (∃ t, top = some t ∧ c.getRankValue = t.getRankValue + 1))) := by
  cases top with
  | none =>
    by_cases h : c.suit = suit <;>
      simp [CardSchema.canPlaceOnFoundation, h]
  | some t =>
    by_cases h : c.suit = suit <;>
      simp [CardSchema.canPlaceOnFoundation, h]

/-- C4 counterexample.  The claim says a `request_state` leaves every field
unchanged, `stateVersion` included; on the fixture room the handler bumps
`stateVersion` (its body is one `incrementVersion()` call). -/
theorem c4_request_state_counterexample :
    (handleRequestState sBase 9).stateVersion ≠ sBase.stateVersion := by
  decide

/-- C4 amended.  Handling `request_state` never fails and mutates exactly
the version bookkeeping: `stateVersion` goes up by one and `lastUpdateTime`
is stamped, while every game field is untouched. -/
theorem c4_request_state_bumps_version (s : DuoTaireState) (now : Nat) :
    (handleRequestState s now).stateVersion = s.stateVersion + 1 ∧
    (handleRequestState s now).lastUpdateTime = now ∧
    (handleRequestState s now).phase = s.phase ∧
    (handleRequestState s now).currentPlayer = s.currentPlayer ∧
    (handleRequestState s now).gameOver = s.gameOver ∧
    (handleRequestState s now).winner = s.winner ∧
    (handleRequestState s now).drawnCard = s.drawnCard ∧
    (handleRequestState s now).hasMovedThisTurn = s.hasMovedThisTurn ∧
    (handleRequestState s now).turnStartTime = s.turnStartTime ∧
    (handleRequestState s now).zapGracePeriod = s.zapGracePeriod ∧
    (handleRequestState s now).zapGraceEndTime = s.zapGraceEndTime ∧
    (handleRequestState s now).lastMoveCard = s.lastMoveCard ∧
    (handleRequestState s now).lastMoveType = s.lastMoveType ∧
    (handleRequestState s now).players = s.players ∧
    (handleRequestState s now).centerPiles = s.centerPiles ∧
    (handleRequestState s now).foundations = s.foundations ∧
    (handleRequestState s now).roomCode = s.roomCode := by
  refine ⟨rfl, rfl, rfl, rfl, rfl, rfl, rfl, rfl, rfl, rfl, rfl, rfl, rfl, rfl,
    rfl, rfl, rfl⟩

/-- C2.  While the room is playing with seat 0 to move, seat 1's connection
closes; `onLeave` ends the game via `getOpponent()` — the opponent of the
CURRENT player — so the winner recorded and broadcast is seat 1, the seat
that just left, not the remaining seat 0 the spec promises. -/
theorem c2_disconnect_winner_bug :
    sBase.phase = "playing" ∧ sBase.currentPlayer = 0 ∧
    (sBase.getPlayerBySession "s1").map (fun p => p.index) = some 1 ∧
    (onLeave sBase "s1" 9).1.phase = "finished" ∧
    (onLeave sBase "s1" 9).1.winner = 1 ∧
    (onLeave sBase "s1" 9).2 = [Broadcast.gameOver 1 "Opponent disconnected"] := by
  decide

/-- C9.  A room whose host holds Q♥ on their discard and whose drawn card
is K♠: the full snapshot reports both discard piles empty and both player
`drawnCard` entries absent — `getFullStateJSON` reads `player.discardPile`
and `player.drawnCard`, neither of which is a field of `PlayerSchema` (the
pile is stored under `discard`, the drawn card on the room state), so the
same all-empty snapshot is broadcast to both seats.  Decks are exposed by
size only, as claimed. -/
theorem c9_snapshot_fields_bug :
    (let s := { sBase with
        players := [("s0", { p0Base with discard := [{ suit := "♥", rank := "Q" }] }),
                    ("s1", p1Base)],
        drawnCard := some { suit := "♠", rank := "K" } }
     ((s.getPlayerByIndex 0).map (fun p => p.discard) =
        some [{ suit := "♥", rank := "Q" }]) ∧
     s.drawnCard = some { suit := "♠", rank := "K" } ∧
     (getFullStateJSON s).players.map (fun p => p.discardPile) = [[], []] ∧
     (getFullStateJSON s).players.map (fun p => p.drawnCard) = [none, none] ∧
     (getFullStateJSON s).players.map (fun p => p.deckSize) = [1, 1]) := by
  decide

/-- C10.  A successful zap (open window, sender seated with an existing
opponent seat) moves no cards: both players' records, the drawn card, the
center piles and the foundations are exactly as before; only the ZAP flag
closes, the version goes up by one and `lastUpdateTime` is stamped. -/
theorem c10_zap_frame (s : DuoTaireState) (sid : String) (p : PlayerSchema)
    (now : Nat)
    (hp : s.getPlayerBySession sid = some p)
    (hzap : s.zapGracePeriod = true)
    (hopp : (s.getPlayerByIndex (1 - p.index)).isSome = true) :
    (handleZap s sid now).players = s.players ∧
    (handleZap s sid now).drawnCard = s.drawnCard ∧
    (handleZap s sid now).centerPiles = s.centerPiles ∧
    (handleZap s sid now).foundations = s.foundations ∧
    (handleZap s sid now).zapGracePeriod = false ∧
    (handleZap s sid now).stateVersion = s.stateVersion + 1 ∧
    (handleZap s sid now).lastUpdateTime = now := by
  obtain ⟨opp, hopp2⟩ := Option.isSome_iff_exists.mp hopp
  simp [handleZap, hp, hzap, hopp2, closeZapGracePeriod,
    DuoTaireState.incrementVersion]

/-- C10 witness: the zap frame property at a concrete room with an open
window, zapped by the guest. -/
theorem c10_zap_frame_witness :
    (handleZap { sBase with zapGracePeriod := true } "s1" 9).players =
      ({ sBase with zapGracePeriod := true } : DuoTaireState).players ∧
    (handleZap { sBase with zapGracePeriod := true } "s1" 9).drawnCard =
      ({ sBase with zapGracePeriod := true } : DuoTaireState).drawnCard ∧
    (handleZap { sBase with zapGracePeriod := true } "s1" 9).centerPiles =
      ({ sBase with zapGracePeriod := true } : DuoTaireState).centerPiles ∧
    (handleZap { sBase with zapGracePeriod := true } "s1" 9).foundations =
      ({ sBase with zapGracePeriod := true } : DuoTaireState).foundations ∧
    (handleZap { sBase with zapGracePeriod := true } "s1" 9).zapGracePeriod = false ∧
    (handleZap { sBase with zapGracePeriod := true } "s1" 9).stateVersion =
      ({ sBase with zapGracePeriod := true } : DuoTaireState).stateVersion + 1 ∧
    (handleZap { sBase with zapGracePeriod := true } "s1" 9).lastUpdateTime = 9 :=
  c10_zap_frame { sBase with zapGracePeriod := true } "s1" p1Base 9
    (by decide) (by decide) (by decide)

/-- C3 counterexample.  On a room with an open ZAP window, seat 0 — the
current player — sends `zap` and the state IS mutated (the handler checks
only the window flag, never the sender's seat), refuting the claim that a
zap from the currentPlayer is ignored. -/
theorem c3_zap_by_current_counterexample :
    (({ sBase with zapGracePeriod := true } : DuoTaireState).getPlayerBySession
        "s0").map (fun p => p.index) =
      some ({ sBase with zapGracePeriod := true } : DuoTaireState).currentPlayer ∧
    handleZap { sBase with zapGracePeriod := true } "s0" 9 ≠
      { sBase with zapGracePeriod := true } := by
  decide

/-- C3 amended.  A zap from any seated sender whose opposite seat exists is
applied whenever the ZAP window is open — the sender may be the
currentPlayer, the handler never compares sender and turn — closing the
window and bumping the version; with no open window the state is left
unchanged. -/
theorem c3_zap_sender_unchecked (s : DuoTaireState) (sid : String)
    (p : PlayerSchema) (now : Nat)
    (hp : s.getPlayerBySession sid = some p) :
    (s.zapGracePeriod = false → handleZap s sid now = s) ∧
    (s.zapGracePeriod = true → (s.getPlayerByIndex (1 - p.index)).isSome = true →
      (handleZap s sid now).zapGracePeriod = false ∧
      (handleZap s sid now).stateVersion = s.stateVersion + 1) := by
  constructor
  · intro hz
    simp [handleZap, hp, hz]
  · intro hz hopp
    obtain ⟨opp, hopp2⟩ := Option.isSome_iff_exists.mp hopp
    simp [handleZap, hp, hz, hopp2, closeZapGracePeriod,
      DuoTaireState.incrementVersion]

/-- C3 witness: the amended zap contract at a concrete room — an open
window zapped by the current player closes the window and bumps the
version. -/
theorem c3_zap_sender_unchecked_witness :
    (handleZap { sBase with zapGracePeriod := true } "s0" 9).zapGracePeriod = false ∧
    (handleZap { sBase with zapGracePeriod := true } "s0" 9).stateVersion =
      ({ sBase with zapGracePeriod := true } : DuoTaireState).stateVersion + 1 :=
  (c3_zap_sender_unchecked { sBase with zapGracePeriod := true } "s0" p0Base 9
    (by decide)).2 (by decide) (by decide)

/-- Looking a session up after mutating that session's entry sees the
mutated player (the JS map holds one object per key). -/
theorem lookup_updateFirst_self (l : List (String × PlayerSchema)) (sid : String)
    (f : PlayerSchema → PlayerSchema) :
    (updateFirst (fun kv => kv.1 == sid) f l).lookup sid = (l.lookup sid).map f := by
  induction l with
  | nil => rfl
  | cons kv rest ih =>
    obtain ⟨k, v⟩ := kv
    by_cases h : k = sid
    · subst h
      simp [updateFirst, List.lookup]
    · have hsk : (sid == k) = false := beq_eq_false_iff_ne.mpr (Ne.symm h)
      have hks : (k == sid) = false := beq_eq_false_iff_ne.mpr h
      simp [updateFirst, List.lookup, hsk, hks, ih]

/-- C6 counterexample.  Seat 0 to draw with an empty deck, exactly one
discard card and an open ZAP window: the draw fails (claim agrees) but the
state is NOT unchanged — `handleDrawCard` closed the ZAP window before
discovering there was nothing to draw. -/
theorem c6_draw_counterexample :
    (sDrawFail.getPlayerBySession "s0").map (fun p => p.deck) = some [] ∧
    (sDrawFail.getPlayerBySession "s0").map (fun p => p.discard.length) = some 1 ∧
    sDrawFail.drawnCard = none ∧
    handleDrawCard sDrawFail "s0" 9 ≠ sDrawFail := by
  decide

/-- C6 amended.  Current player draws with no drawn card and an empty deck:
with at most one discard card the draw fails, no cards move and the version
stays put, but the state is not literally unchanged — the handler has
already closed any open ZAP window (`handleDrawCard s = closeZapGracePeriod
s`).  With at least two discard cards, all discard cards under the top are
recycled into the deck in order, the former top stays as the only discard
card, and the draw succeeds from the recycled deck, bumping the version. -/
theorem c6_draw_empty_deck (s : DuoTaireState) (sid : String)
    (p : PlayerSchema) (now : Nat)
    (hp : s.getPlayerBySession sid = some p)
    (hturn : p.index = s.currentPlayer)
    (hdrawn : s.drawnCard = none)
    (hdeck : p.deck = []) :
    (p.discard.length ≤ 1 → handleDrawCard s sid now = closeZapGracePeriod s) ∧
    (2 ≤ p.discard.length →
      (handleDrawCard s sid now).drawnCard = p.discard.dropLast.getLast? ∧
      (handleDrawCard s sid now).stateVersion = s.stateVersion + 1 ∧
      (handleDrawCard s sid now).getPlayerBySession sid =
        some { p with deck := p.discard.dropLast.dropLast,
                      discard := p.discard.getLast?.toList }) := by
  constructor
  · intro hle
    simp [handleDrawCard, hp, hturn, hdrawn, PlayerSchema.drawCardFn, hdeck, hle]
  · intro h2
    have hgt : ¬ p.discard.length ≤ 1 := by omega
    have hne : p.discard.dropLast ≠ [] := by
      intro hemp
      have hlen := congrArg List.length hemp
      simp [List.length_dropLast] at hlen
      omega
    obtain ⟨c, hc⟩ := Option.isSome_iff_exists.mp
      (List.getLast?_isSome.mpr hne)
    simp only [handleDrawCard, hp, hturn, hdrawn, PlayerSchema.drawCardFn,
      hdeck, hgt, hc, Option.isSome_none, List.isEmpty_nil, if_true, if_false,
      ite_false, ite_true, Bool.false_eq_true, not_false_eq_true, ne_eq,
      not_true_eq_false]
    refine ⟨by simp [DuoTaireState.incrementVersion], ?_, ?_⟩
    · simp [DuoTaireState.incrementVersion, DuoTaireState.updatePlayerBySession,
        closeZapGracePeriod]
    · simp only [DuoTaireState.incrementVersion, DuoTaireState.getPlayerBySession,
        DuoTaireState.updatePlayerBySession, closeZapGracePeriod]
      rw [lookup_updateFirst_self]
      have hlook : s.players.lookup sid = some p := hp
      rw [hlook]
      rfl

/-! Frame lemmas: which state fields each move helper can touch. -/

/-- Removing a source card never changes the turn. -/
@[simp] theorem removeCardFromSource_currentPlayer (s : DuoTaireState)
    (ft : String) (fi : Int) :
    (removeCardFromSource s ft fi).currentPlayer = s.currentPlayer := by
  unfold removeCardFromSource
  split_ifs <;> rfl

/-- Removing a source card never changes the version. -/
@[simp] theorem removeCardFromSource_stateVersion (s : DuoTaireState)
    (ft : String) (fi : Int) :
    (removeCardFromSource s ft fi).stateVersion = s.stateVersion := by
  unfold removeCardFromSource
  split_ifs <;> rfl

/-- Removing a source card never changes the player records. -/
@[simp] theorem removeCardFromSource_players (s : DuoTaireState)
    (ft : String) (fi : Int) :
    (removeCardFromSource s ft fi).players = s.players := by
  unfold removeCardFromSource
  split_ifs <;> rfl

/-- Removing a source card never changes the phase. -/
@[simp] theorem removeCardFromSource_phase (s : DuoTaireState)
    (ft : String) (fi : Int) :
    (removeCardFromSource s ft fi).phase = s.phase := by
  unfold removeCardFromSource
  split_ifs <;> rfl

/-- Removing a source card never touches the ZAP flag. -/
@[simp] theorem removeCardFromSource_zap (s : DuoTaireState)
    (ft : String) (fi : Int) :
    (removeCardFromSource s ft fi).zapGracePeriod = s.zapGracePeriod := by
  unfold removeCardFromSource
  split_ifs <;> rfl

/-- Removing a source card never touches `hasMovedThisTurn`. -/
@[simp] theorem removeCardFromSource_hasMoved (s : DuoTaireState)
    (ft : String) (fi : Int) :
    (removeCardFromSource s ft fi).hasMovedThisTurn = s.hasMovedThisTurn := by
  unfold removeCardFromSource
  split_ifs <;> rfl

/-- Removing a source card never touches the turn clock. -/
@[simp] theorem removeCardFromSource_turnStart (s : DuoTaireState)
    (ft : String) (fi : Int) :
    (removeCardFromSource s ft fi).turnStartTime = s.turnStartTime := by
  unfold removeCardFromSource
  split_ifs <;> rfl

/-- Removing a source card never touches the foundations. -/
@[simp] theorem removeCardFromSource_foundations (s : DuoTaireState)
    (ft : String) (fi : Int) :
    (removeCardFromSource s ft fi).foundations = s.foundations := by
  unfold removeCardFromSource
  split_ifs <;> rfl

/-- Removing the drawn-card source clears `drawnCard`. -/
@[simp] theorem removeCardFromSource_drawn (s : DuoTaireState) (fi : Int) :
    (removeCardFromSource s "drawn" fi).drawnCard = none := by
  unfold removeCardFromSource
  simp

/-- Source `playToFoundation` frame: the turn and version are untouched, a failed
move returns the state unchanged, a move sourced from the drawn card clears
`drawnCard`, and a successful move forces the flag order `success = true`. -/
theorem playToFoundation_facts (s : DuoTaireState) (c : CardSchema) (i : Int)
    (ft : String) (fi : Int) (now : Nat) :
    (playToFoundation s c i ft fi now).2.currentPlayer = s.currentPlayer ∧
    (playToFoundation s c i ft fi now).2.stateVersion = s.stateVersion ∧
    ((playToFoundation s c i ft fi now).1 = false →
      (playToFoundation s c i ft fi now).2 = s) ∧
    (ft = "drawn" → (playToFoundation s c i ft fi now).1 = true →
      (playToFoundation s c i ft fi now).2.drawnCard = none) := by
  unfold playToFoundation
  dsimp only
  split
  · exact ⟨rfl, rfl, fun _ => rfl, fun _ h => by simp at h⟩
  · split
    · exact ⟨rfl, rfl, fun _ => rfl, fun _ h => by simp at h⟩
    · split
      · exact ⟨rfl, rfl, fun _ => rfl, fun _ h => by simp at h⟩
      · refine ⟨?_, ?_, ?_, ?_⟩
        · simp [closeZapGracePeriod, startZapGracePeriod]
        · simp [closeZapGracePeriod, startZapGracePeriod]
        · intro h
          simp at h
        · intro hft _
          subst hft
          simp [closeZapGracePeriod, startZapGracePeriod]

/-- Source `playToCenter` frame, as for `playToFoundation`. -/
theorem playToCenter_facts (s : DuoTaireState) (c : CardSchema) (i : Int)
    (ft : String) (fi : Int) :
    (playToCenter s c i ft fi).2.currentPlayer = s.currentPlayer ∧
    (playToCenter s c i ft fi).2.stateVersion = s.stateVersion ∧
    ((playToCenter s c i ft fi).1 = false → (playToCenter s c i ft fi).2 = s) ∧
    (ft = "drawn" → (playToCenter s c i ft fi).1 = true →
      (playToCenter s c i ft fi).2.drawnCard = none) := by
  unfold playToCenter
  dsimp only
  split
  · exact ⟨rfl, rfl, fun _ => rfl, fun _ h => by simp at h⟩
  · split
    · exact ⟨rfl, rfl, fun _ => rfl, fun _ h => by simp at h⟩
    · refine ⟨?_, ?_, ?_, ?_⟩
      · simp [closeZapGracePeriod]
      · simp [closeZapGracePeriod]
      · intro h
        simp at h
      · intro hft _
        subst hft
        simp [closeZapGracePeriod]

/-- Source `playToOpponentDiscard` frame, as for `playToFoundation`. -/
theorem playToOpponentDiscard_facts (s : DuoTaireState) (c : CardSchema)
    (ft : String) (fi : Int) :
    (playToOpponentDiscard s c ft fi).2.currentPlayer = s.currentPlayer ∧
    (playToOpponentDiscard s c ft fi).2.stateVersion = s.stateVersion ∧
    ((playToOpponentDiscard s c ft fi).1 = false →
      (playToOpponentDiscard s c ft fi).2 = s) ∧
    (ft = "drawn" → (playToOpponentDiscard s c ft fi).1 = true →
      (playToOpponentDiscard s c ft fi).2.drawnCard = none) := by
  unfold playToOpponentDiscard
  dsimp only
  split
  · exact ⟨rfl, rfl, fun _ => rfl, fun _ h => by simp at h⟩
  · split
    · exact ⟨rfl, rfl, fun _ => rfl, fun _ h => by simp at h⟩
    · split
      · exact ⟨rfl, rfl, fun _ => rfl, fun _ h => by simp at h⟩
      · refine ⟨?_, ?_, ?_, ?_⟩
        · simp [closeZapGracePeriod, DuoTaireState.updatePlayerByIndex]
        · simp [closeZapGracePeriod, DuoTaireState.updatePlayerByIndex]
        · intro h
          simp at h
        · intro hft _
          subst hft
          simp [closeZapGracePeriod, DuoTaireState.updatePlayerByIndex]

/-- Source `playToOwnDiscard` frame: the version is untouched, failure returns the
state unchanged, success forces a drawn-card source and clears
`drawnCard`. -/
theorem playToOwnDiscard_facts (s : DuoTaireState) (c : CardSchema)
    (ft : String) (fi : Int) (now : Nat) :
    (playToOwnDiscard s c ft fi now).2.stateVersion = s.stateVersion ∧
    ((playToOwnDiscard s c ft fi now).1 = false →
      (playToOwnDiscard s c ft fi now).2 = s) ∧
    ((playToOwnDiscard s c ft fi now).1 = true → ft = "drawn") ∧
    ((playToOwnDiscard s c ft fi now).1 = true →
      (playToOwnDiscard s c ft fi now).2.drawnCard = none) := by
  unfold playToOwnDiscard
  dsimp only
  split
  · exact ⟨rfl, fun _ => rfl, fun h => by simp at h, fun h => by simp at h⟩
  · rename_i hft
    have hft2 : ft = "drawn" := by
      by_contra hne
      exact hft (by simp [hne])
    split
    · exact ⟨rfl, fun _ => rfl, fun h => by simp at h, fun h => by simp at h⟩
    · refine ⟨?_, ?_, ?_, ?_⟩
      · simp [closeZapGracePeriod, DuoTaireState.updatePlayerByIndex, endTurn]
      · intro h
        simp at h
      · intro _
        exact hft2
      · intro _
        subst hft2
        simp [closeZapGracePeriod, DuoTaireState.updatePlayerByIndex, endTurn]

/-- Source `finishPlay` keeps the success flag of the move it wraps. -/
theorem finishPlay_fst (res : Bool × DuoTaireState) (now : Nat) :
    (finishPlay res now).1 = res.1 := by
  unfold finishPlay
  split
  · rename_i h
    dsimp only
    split <;> simp [h]
  · rename_i h
    simp at h
    simp [h]

/-- Source `finishPlay` on a failed move returns the move's state untouched. -/
theorem finishPlay_false (res : Bool × DuoTaireState) (now : Nat)
    (h : res.1 = false) :
    finishPlay res now = (false, res.2, []) := by
  unfold finishPlay
  simp [h]

/-- Source `finishPlay` never changes the turn. -/
theorem finishPlay_currentPlayer (res : Bool × DuoTaireState) (now : Nat) :
    (finishPlay res now).2.1.currentPlayer = res.2.currentPlayer := by
  unfold finishPlay
  split
  · dsimp only
    split <;> simp [endGame, DuoTaireState.incrementVersion]
  · rfl

/-- Source `finishPlay` never changes the drawn card. -/
theorem finishPlay_drawnCard (res : Bool × DuoTaireState) (now : Nat) :
    (finishPlay res now).2.1.drawnCard = res.2.drawnCard := by
  unfold finishPlay
  split
  · dsimp only
    split <;> simp [endGame, DuoTaireState.incrementVersion]
  · rfl

/-- Source `finishPlay` never changes the ZAP flag. -/
theorem finishPlay_zap (res : Bool × DuoTaireState) (now : Nat) :
    (finishPlay res now).2.1.zapGracePeriod = res.2.zapGracePeriod := by
  unfold finishPlay
  split
  · dsimp only
    split <;> simp [endGame, DuoTaireState.incrementVersion]
  · rfl

/-- Source `finishPlay` never changes the turn clock. -/
theorem finishPlay_turnStart (res : Bool × DuoTaireState) (now : Nat) :
    (finishPlay res now).2.1.turnStartTime = res.2.turnStartTime := by
  unfold finishPlay
  split
  · dsimp only
    split <;> simp [endGame, DuoTaireState.incrementVersion]
  · rfl

/-- Source `finishPlay` never changes the player records. -/
theorem finishPlay_players (res : Bool × DuoTaireState) (now : Nat) :
    (finishPlay res now).2.1.players = res.2.players := by
  unfold finishPlay
  split
  · dsimp only
    split <;> simp [endGame, DuoTaireState.incrementVersion]
  · rfl

/-- After a successful move `finishPlay` reports `hasMovedThisTurn = true`
— it overwrites whatever the move itself (`endTurn` included) left there. -/
theorem finishPlay_hasMoved (res : Bool × DuoTaireState) (now : Nat)
    (h : res.1 = true) :
    (finishPlay res now).2.1.hasMovedThisTurn = true := by
  unfold finishPlay
  simp only [h, if_true]
  split <;> simp [endGame, DuoTaireState.incrementVersion]

/-- After a successful move `finishPlay` bumps the version once, or twice
when the board is complete and `endGame` runs (then the phase is
finished). -/
theorem finishPlay_version (res : Bool × DuoTaireState) (now : Nat)
    (h : res.1 = true) :
    (finishPlay res now).2.1.stateVersion = res.2.stateVersion + 1 ∨
    ((finishPlay res now).2.1.stateVersion = res.2.stateVersion + 2 ∧
      (finishPlay res now).2.1.phase = "finished") := by
  unfold finishPlay
  simp only [h, if_true]
  split
  · right
    constructor <;> simp [endGame, DuoTaireState.incrementVersion]
  · left
    simp [DuoTaireState.incrementVersion]

/-- Frame of the `switch (toType)`: version and (off the turn-ending
branch) turn are untouched, failure leaves the state unchanged, and a
successful drawn-card move clears `drawnCard`. -/
theorem playSwitch_facts (s : DuoTaireState) (card : CardSchema)
    (m : PlayCardMessage) (now : Nat) :
    (playSwitch s card m now).2.stateVersion = s.stateVersion ∧
    ((playSwitch s card m now).1 = false → (playSwitch s card m now).2 = s) ∧
    (m.fromType = "drawn" → (playSwitch s card m now).1 = true →
      (playSwitch s card m now).2.drawnCard = none) ∧
    (m.toType ≠ "ownDiscard" →
      (playSwitch s card m now).2.currentPlayer = s.currentPlayer) := by
  unfold playSwitch
  by_cases h1 : m.toType = "foundation"
  · simp only [h1, if_true]
    have hf := playToFoundation_facts s card m.toIndex m.fromType m.fromIndex now
    exact ⟨hf.2.1, hf.2.2.1, hf.2.2.2, fun _ => hf.1⟩
  · simp only [h1, if_false]
    by_cases h2 : m.toType = "center"
    · simp only [h2, if_true]
      have hf := playToCenter_facts s card m.toIndex m.fromType m.fromIndex
      exact ⟨hf.2.1, hf.2.2.1, hf.2.2.2, fun _ => hf.1⟩
    · simp only [h2, if_false]
      by_cases h3 : m.toType = "opponentDiscard"
      · simp only [h3, if_true]
        have hf := playToOpponentDiscard_facts s card m.fromType m.fromIndex
        exact ⟨hf.2.1, hf.2.2.1, hf.2.2.2, fun _ => hf.1⟩
      · simp only [h3, if_false]
        by_cases h4 : m.toType = "ownDiscard"
        · simp only [h4, if_true]
          have hf := playToOwnDiscard_facts s card m.fromType m.fromIndex now
          exact ⟨hf.1, hf.2.1, fun _ hs => hf.2.2.2 hs, fun hne => absurd rfl hne⟩
        · simp only [h4, if_false]
          refine ⟨?_, ?_, ?_, ?_⟩ <;> intros <;> simp_all

/-- Source `finishPlay` over a version-preserving move: the version afterwards is
the untouched, the once-bumped or — with a finished phase — the
twice-bumped one. -/
theorem finishPlay_version_cases (s : DuoTaireState)
    (res : Bool × DuoTaireState) (now : Nat)
    (hv : res.2.stateVersion = s.stateVersion) :
    (finishPlay res now).2.1.stateVersion = s.stateVersion ∨
    (finishPlay res now).2.1.stateVersion = s.stateVersion + 1 ∨
    ((finishPlay res now).2.1.stateVersion = s.stateVersion + 2 ∧
      (finishPlay res now).2.1.phase = "finished") := by
  cases hb : res.1 with
  | false =>
    rw [finishPlay_false res now hb]
    left
    simpa using hv
  | true =>
    rcases finishPlay_version res now hb with h | ⟨h1, h2⟩
    · right
      left
      rw [h, hv]
    · right
      right
      exact ⟨by rw [h1, hv], h2⟩

/-- An accepted `play_card` (its `success` flag true) bumps the version by
exactly one, or by exactly two with the phase finished when the move wins
the game. -/
theorem handlePlayCard_accepted_version (s : DuoTaireState) (sid : String)
    (m : PlayCardMessage) (now : Nat)
    (hsucc : (handlePlayCard s sid m now).1 = true) :
    (handlePlayCard s sid m now).2.1.stateVersion = s.stateVersion + 1 ∨
    ((handlePlayCard s sid m now).2.1.stateVersion = s.stateVersion + 2 ∧
      (handlePlayCard s sid m now).2.1.phase = "finished") := by
  revert hsucc
  unfold handlePlayCard
  split
  · intro h
    simp at h
  · split
    · intro h
      simp at h
    · split
      · intro h
        simp at h
      · intro h
        rename_i card _
        have hres : (playSwitch s card m now).1 = true := by
          rw [← finishPlay_fst (playSwitch s card m now) now]
          exact h
        have hv := (playSwitch_facts s card m now).1
        rcases finishPlay_version (playSwitch s card m now) now hres with h1 | ⟨h1, h2⟩
        · left
          rw [h1, hv]
        · right
          exact ⟨by rw [h1, hv], h2⟩

/-- A rejected `play_card` (its `success` flag false) leaves the state
untouched. -/
theorem handlePlayCard_rejected (s : DuoTaireState) (sid : String)
    (m : PlayCardMessage) (now : Nat) :
    (handlePlayCard s sid m now).1 = false →
      (handlePlayCard s sid m now).2.1 = s := by
  unfold handlePlayCard
  split
  · intro _
    rfl
  · split
    · intro _
      rfl
    · split
      · intro _
        rfl
      · intro h
        rename_i card _
        have hres : (playSwitch s card m now).1 = false := by
          rw [← finishPlay_fst (playSwitch s card m now) now]
          exact h
        rw [finishPlay_false _ now hres]
        exact (playSwitch_facts s card m now).2.1 hres

/-- Exact outcome shape of a draw: either rejected before anything happened
(the state is returned as is), rejected after the early
`closeZapGracePeriod()` (nothing else moved), or accepted with the version
bumped by exactly one. -/
theorem handleDrawCard_shape (s : DuoTaireState) (sid : String) (now : Nat) :
    handleDrawCard s sid now = s ∨
    handleDrawCard s sid now = closeZapGracePeriod s ∨
    (handleDrawCard s sid now).stateVersion = s.stateVersion + 1 := by
  unfold handleDrawCard
  split
  · left
    rfl
  · split
    · left
      rfl
    · split
      · left
        rfl
      · split
        · right
          left
          rfl
        · right
          right
          simp [closeZapGracePeriod, DuoTaireState.updatePlayerBySession,
            DuoTaireState.incrementVersion]

/-- Exact outcome shape of a zap: either rejected with the state returned
untouched, or accepted with the version bumped by exactly one. -/
theorem handleZap_shape (s : DuoTaireState) (sid : String) (now : Nat) :
    handleZap s sid now = s ∨
    (handleZap s sid now).stateVersion = s.stateVersion + 1 := by
  unfold handleZap
  split
  · left
    rfl
  · split
    · left
      rfl
    · split
      · left
        rfl
      · right
        simp [closeZapGracePeriod, DuoTaireState.incrementVersion]

/-- Exact outcome shape of a sequence move: either rejected with the state
returned untouched, or accepted with the version bumped by exactly one. -/
theorem handleSequenceMove_shape (s : DuoTaireState) (sid : String)
    (m : SequenceMoveMessage) (now : Nat) :
    handleSequenceMove s sid m now = s ∨
    (handleSequenceMove s sid m now).stateVersion = s.stateVersion + 1 := by
  unfold handleSequenceMove
  split
  · left
    rfl
  · split
    · left
      rfl
    · split
      · left
        rfl
      · split
        · left
          rfl
        · dsimp only
          split
          · left
            rfl
          · split
            · left
              rfl
            · split
              · left
                rfl
              · right
                simp [closeZapGracePeriod, DuoTaireState.incrementVersion]


/-- C8 counterexample.  On the one-card-from-victory room, playing the
drawn K♦ to the diamond foundation is accepted and increases `stateVersion`
by exactly TWO (once for the move, once inside `endGame`), refuting the
claim that a winning play bumps it by exactly one. -/
theorem c8_winning_play_counterexample :
    (handlePlayCard sWin "s0" mWinning 9).1 = true ∧
    (handlePlayCard sWin "s0" mWinning 9).2.1.phase = "finished" ∧
    (handlePlayCard sWin "s0" mWinning 9).2.1.stateVersion =
      sWin.stateVersion + 2 := by
  decide

/-- C8 amended.  Every intent falls into one of three shapes: rejected,
with `stateVersion` unchanged and the state returned untouched (for a
`draw_card` the rejection may at most have closed an open ZAP window);
accepted, with `stateVersion` increased by exactly one; or an accepted
winning `play_card`, with `stateVersion` increased by exactly two and the
phase finished.  So every accepted (state-mutating) intent bumps the
version by exactly one — any outcome other than the identity (or the
draw's bare window close) carries the bump — except the winning play,
which bumps twice; and in particular an accepted `play_card` bumps by one
(or two, winning) while a rejected one leaves the whole state unchanged. -/
theorem c8_version_bump (s : DuoTaireState) (sid : String) (i : Intent)
    (now : Nat) :
    (((applyIntent s sid i now).1.stateVersion = s.stateVersion ∧
      ((applyIntent s sid i now).1 = s ∨
       (i = Intent.drawCard ∧
        (applyIntent s sid i now).1 = closeZapGracePeriod s))) ∨
     (applyIntent s sid i now).1.stateVersion = s.stateVersion + 1 ∨
     ((applyIntent s sid i now).1.stateVersion = s.stateVersion + 2 ∧
       (applyIntent s sid i now).1.phase = "finished" ∧
       ∃ m, i = Intent.playCard m ∧ (handlePlayCard s sid m now).1 = true)) ∧
    (∀ m, i = Intent.playCard m →
      ((handlePlayCard s sid m now).1 = true →
        (handlePlayCard s sid m now).2.1.stateVersion = s.stateVersion + 1 ∨
        ((handlePlayCard s sid m now).2.1.stateVersion = s.stateVersion + 2 ∧
          (handlePlayCard s sid m now).2.1.phase = "finished")) ∧
      ((handlePlayCard s sid m now).1 = false →
        (applyIntent s sid i now).1 = s)) := by
  constructor
  · cases i with
    | playCard m =>
      have hai : (applyIntent s sid (Intent.playCard m) now).1 =
          (handlePlayCard s sid m now).2.1 := rfl
      cases hb : (handlePlayCard s sid m now).1 with
      | false =>
        left
        have hst := handlePlayCard_rejected s sid m now hb
        rw [hai, hst]
        exact ⟨rfl, Or.inl rfl⟩
      | true =>
        rcases handlePlayCard_accepted_version s sid m now hb with h | ⟨h1, h2⟩
        · right
          left
          rw [hai]
          exact h
        · right
          right
          rw [hai]
          exact ⟨h1, h2, m, rfl, hb⟩
    | drawCard =>
      have hai : (applyIntent s sid Intent.drawCard now).1 =
          handleDrawCard s sid now := rfl
      rcases handleDrawCard_shape s sid now with h | h | h
      · left
        rw [hai, h]
        exact ⟨rfl, Or.inl rfl⟩
      · left
        rw [hai, h]
        exact ⟨rfl, Or.inr ⟨rfl, rfl⟩⟩
      · right
        left
        rw [hai]
        exact h
    | sequenceMove m =>
      have hai : (applyIntent s sid (Intent.sequenceMove m) now).1 =
          handleSequenceMove s sid m now := rfl
      rcases handleSequenceMove_shape s sid m now with h | h
      · left
        rw [hai, h]
        exact ⟨rfl, Or.inl rfl⟩
      · right
        left
        rw [hai]
        exact h
    | zap =>
      have hai : (applyIntent s sid Intent.zap now).1 =
          handleZap s sid now := rfl
      rcases handleZap_shape s sid now with h | h
      · left
        rw [hai, h]
        exact ⟨rfl, Or.inl rfl⟩
      · right
        left
        rw [hai]
        exact h
    | requestState =>
      right
      left
      rfl
  · intro m hm
    subst hm
    exact ⟨fun hs => handlePlayCard_accepted_version s sid m now hs,
           fun hr => handlePlayCard_rejected s sid m now hr⟩


/-- A successful `play_card` sourced from the drawn card leaves no drawn
card behind. -/
theorem handlePlayCard_drawn_clears (s : DuoTaireState) (sid : String)
    (m : PlayCardMessage) (now : Nat)
    (hft : m.fromType = "drawn")
    (hsucc : (handlePlayCard s sid m now).1 = true) :
    (handlePlayCard s sid m now).2.1.drawnCard = none := by
  revert hsucc
  unfold handlePlayCard
  split
  · intro h
    simp at h
  · split
    · intro h
      simp at h
    · split
      · intro h
        simp at h
      · intro h
        rename_i card _
        have hres : (playSwitch s card m now).1 = true := by
          rw [← finishPlay_fst (playSwitch s card m now) now]
          exact h
        rw [finishPlay_drawnCard]
        exact (playSwitch_facts s card m now).2.2.1 hft hres

/-- With no drawn card, a `play_card` sourced from the drawn card is
rejected without touching the state. -/
theorem handlePlayCard_drawn_none (t : DuoTaireState) (sid : String)
    (m : PlayCardMessage) (now2 : Nat)
    (hd : t.drawnCard = none) (hft : m.fromType = "drawn") :
    handlePlayCard t sid m now2 = (false, t, []) := by
  unfold handlePlayCard
  split
  · rfl
  · split
    · rfl
    · have hsrc : getCardFromSource t m.fromType m.fromIndex = none := by
        simp [getCardFromSource, hft, hd]
      rw [hsrc]

/-- C5 counterexample.  On the room whose center pile 0 holds 3♠ under 2♠
with A♠ already on the spade foundation, the identical
`center[0] → foundation[0]` message is accepted TWICE in a row — the
second submission re-validates against the new pile top 3♠ and mutates the
state again, refuting the claim that a duplicated `play_card` is a no-op. -/
theorem c5_duplicate_center_counterexample :
    (handlePlayCard sTwice "s0" mCenterToFoundation 7).1 = true ∧
    (handlePlayCard ((handlePlayCard sTwice "s0" mCenterToFoundation 7).2.1)
        "s0" mCenterToFoundation 8).1 = true ∧
    (handlePlayCard ((handlePlayCard sTwice "s0" mCenterToFoundation 7).2.1)
        "s0" mCenterToFoundation 8).2.1 ≠
      (handlePlayCard sTwice "s0" mCenterToFoundation 7).2.1 := by
  decide

/-- C5 amended.  The claimed idempotence does hold for messages sourced
from the drawn card: a successful `play_card` with `fromType = drawn`
clears `drawnCard`, so immediately re-applying the identical message is
rejected and returns the state untouched.  (For `fromType = center` the
duplicate may validate against the new pile top and succeed again.) -/
theorem c5_duplicate_drawn_noop (s : DuoTaireState) (sid : String)
    (m : PlayCardMessage) (now now2 : Nat)
    (hft : m.fromType = "drawn")
    (hsucc : (handlePlayCard s sid m now).1 = true) :
    handlePlayCard ((handlePlayCard s sid m now).2.1) sid m now2 =
      (false, (handlePlayCard s sid m now).2.1, []) :=
  handlePlayCard_drawn_none _ sid m now2
    (handlePlayCard_drawn_clears s sid m now hft hsucc) hft

/-- C5 witness: discarding the drawn 7♥ succeeds, and replaying the same
message against the resulting room is rejected with the state untouched. -/
theorem c5_duplicate_drawn_noop_witness :
    handlePlayCard ((handlePlayCard sDrawn7 "s0" mOwnDiscard 7).2.1)
        "s0" mOwnDiscard 8 =
      (false, (handlePlayCard sDrawn7 "s0" mOwnDiscard 7).2.1, []) :=
  c5_duplicate_drawn_noop sDrawn7 "s0" mOwnDiscard 7 8 rfl (by decide)

/-- Any `play_card` whose destination is not `ownDiscard` leaves the turn
where it was, successful or not. -/
theorem handlePlayCard_keeps_currentPlayer (s : DuoTaireState) (sid : String)
    (m : PlayCardMessage) (now : Nat)
    (hm : m.toType ≠ "ownDiscard") :
    (handlePlayCard s sid m now).2.1.currentPlayer = s.currentPlayer := by
  unfold handlePlayCard
  split
  · rfl
  · split
    · rfl
    · split
      · rfl
      · rename_i card _
        rw [finishPlay_currentPlayer]
        exact (playSwitch_facts s card m now).2.2.2 hm

/-- Finding a seat by index after mutating the seat found at that index
sees the mutated player, provided the mutation keeps the index. -/
theorem find_updateFirst_index (l : List (String × PlayerSchema)) (i : Int)
    (f : PlayerSchema → PlayerSchema) (hf : ∀ q, (f q).index = q.index) :
    (updateFirst (fun kv => kv.2.index == i) f l).find?
        (fun kv => kv.2.index == i) =
      (l.find? (fun kv => kv.2.index == i)).map (fun kv => (kv.1, f kv.2)) := by
  induction l with
  | nil => rfl
  | cons kv rest ih =>
    obtain ⟨k, v⟩ := kv
    by_cases h : v.index = i
    · have hb : (v.index == i) = true := by simp [h]
      have hfb : ((f v).index == i) = true := by simp [hf v, h]
      simp [updateFirst, List.find?, hb, hfb]
    · have hb : (v.index == i) = false := by simp [h]
      simp [updateFirst, List.find?, hb, ih]

/-- Source `getPlayerByIndex` after `updatePlayerByIndex` at the same index. -/
theorem getPlayerByIndex_update (s : DuoTaireState) (i : Int)
    (f : PlayerSchema → PlayerSchema) (p : PlayerSchema)
    (hf : ∀ q, (f q).index = q.index)
    (hs : s.getPlayerByIndex i = some p) :
    (s.updatePlayerByIndex i f).getPlayerByIndex i = some (f p) := by
  unfold DuoTaireState.getPlayerByIndex DuoTaireState.updatePlayerByIndex at *
  rw [find_updateFirst_index s.players i f hf]
  cases hfind : s.players.find? (fun kv => kv.2.index == i) with
  | none =>
    rw [hfind] at hs
    simp at hs
  | some kv =>
    rw [hfind] at hs
    simp at hs
    simp [hs]

/-- Two states with the same player list agree on every seat lookup. -/
theorem getPlayerByIndex_players (s1 s2 : DuoTaireState) (i : Int)
    (h : s1.players = s2.players) :
    s1.getPlayerByIndex i = s2.getPlayerByIndex i := by
  unfold DuoTaireState.getPlayerByIndex
  rw [h]

/-- C1 counterexample.  Seat 0 discards its drawn 7♥ to its own discard:
the move succeeds and ends the turn, yet `hasMovedThisTurn` is TRUE in the
resulting state — `handlePlayCard` re-sets the flag after `endTurn`
cleared it — refuting the claim that the flag is false after the
turn-ending move. -/
theorem c1_hasMoved_counterexample :
    (handlePlayCard sDrawn7 "s0" mOwnDiscard 7).1 = true ∧
    (handlePlayCard sDrawn7 "s0" mOwnDiscard 7).2.1.currentPlayer = 1 ∧
    (handlePlayCard sDrawn7 "s0" mOwnDiscard 7).2.1.hasMovedThisTurn = true := by
  decide

/-- C1 amended.  In a playing room, a `play_card` from the current player
with destination `ownDiscard` succeeds only when sourced from the drawn
card; on success the drawn card is appended (as a clone) to the sender's
discard, `drawnCard` becomes none, the turn passes to the other seat, the
turn clock restarts at `now`, the ZAP window is closed — and
`hasMovedThisTurn` ends up TRUE, because the handler sets it after the
move (the spec says false).  No `play_card` to any other destination ever
changes `currentPlayer`. -/
theorem c1_own_discard (s : DuoTaireState) (sid : String) (p : PlayerSchema)
    (m : PlayCardMessage) (now : Nat)
    (hphase : s.phase = "playing")
    (hp : s.getPlayerBySession sid = some p)
    (hturn : p.index = s.currentPlayer)
    (hseat : s.getPlayerByIndex s.currentPlayer = some p)
    (hto : m.toType = "ownDiscard") :
    ((handlePlayCard s sid m now).1 = true → m.fromType = "drawn") ∧
    ((handlePlayCard s sid m now).1 = true →
      ∃ c, s.drawnCard = some c ∧
        (handlePlayCard s sid m now).2.1.drawnCard = none ∧
        (handlePlayCard s sid m now).2.1.currentPlayer = 1 - s.currentPlayer ∧
        (handlePlayCard s sid m now).2.1.turnStartTime = now ∧
        (handlePlayCard s sid m now).2.1.zapGracePeriod = false ∧
        (handlePlayCard s sid m now).2.1.hasMovedThisTurn = true ∧
        (handlePlayCard s sid m now).2.1.getPlayerByIndex s.currentPlayer =
          some (p.addToDiscard c.clone)) ∧
    (∀ sid2 m2, m2.toType ≠ "ownDiscard" →
      (handlePlayCard s sid2 m2 now).2.1.currentPlayer = s.currentPlayer) := by
  have hnot : ¬ (p.index ≠ s.currentPlayer) := by simp [hturn]
  refine ⟨?_, ?_, fun sid2 m2 hm2 => handlePlayCard_keeps_currentPlayer s sid2 m2 now hm2⟩
  · unfold handlePlayCard
    rw [hp]
    dsimp only
    rw [if_neg hnot]
    cases hsrc : getCardFromSource s m.fromType m.fromIndex with
    | none =>
      intro h
      simp at h
    | some card =>
      intro h
      have hres : (playSwitch s card m now).1 = true := by
        rw [← finishPlay_fst (playSwitch s card m now) now]
        exact h
      have hps : playSwitch s card m now =
          playToOwnDiscard s card m.fromType m.fromIndex now := by
        simp [playSwitch, hto]
      by_cases hft : m.fromType = "drawn"
      · exact hft
      · exfalso
        rw [hps] at hres
        unfold playToOwnDiscard at hres
        rw [if_pos (by simpa using hft)] at hres
        simp at hres
  · unfold handlePlayCard
    rw [hp]
    dsimp only
    rw [if_neg hnot]
    cases hsrc : getCardFromSource s m.fromType m.fromIndex with
    | none =>
      intro h
      simp at h
    | some card =>
      intro h
      have hres : (playSwitch s card m now).1 = true := by
        rw [← finishPlay_fst (playSwitch s card m now) now]
        exact h
      have hps : playSwitch s card m now =
          playToOwnDiscard s card m.fromType m.fromIndex now := by
        simp [playSwitch, hto]
      by_cases hft : m.fromType = "drawn"
      case neg =>
        exfalso
        rw [hps] at hres
        unfold playToOwnDiscard at hres
        rw [if_pos (by simpa using hft)] at hres
        simp at hres
      case pos =>
        have hdc : s.drawnCard = some card := by
          rw [hft] at hsrc
          simpa [getCardFromSource] using hsrc
        refine ⟨card, hdc, ?_, ?_, ?_, ?_, ?_, ?_⟩
        · rw [finishPlay_drawnCard, hps]
          exact (playToOwnDiscard_facts s card m.fromType m.fromIndex now).2.2.2
            (by rw [← hps]; exact hres)
        · rw [finishPlay_currentPlayer, hps]
          unfold playToOwnDiscard
          rw [if_neg (by simpa using hft), hseat]
          simp [endTurn, closeZapGracePeriod, DuoTaireState.updatePlayerByIndex, hft]
        · rw [finishPlay_turnStart, hps]
          unfold playToOwnDiscard
          rw [if_neg (by simpa using hft), hseat]
          simp [endTurn]
        · rw [finishPlay_zap, hps]
          unfold playToOwnDiscard
          rw [if_neg (by simpa using hft), hseat]
          simp [endTurn, closeZapGracePeriod, DuoTaireState.updatePlayerByIndex, hft]
        · exact finishPlay_hasMoved _ now hres
        · have hplayers : (finishPlay (playSwitch s card m now) now).2.1.players =
              (s.updatePlayerByIndex s.currentPlayer
                (fun q => q.addToDiscard card.clone)).players := by
            rw [finishPlay_players, hps]
            unfold playToOwnDiscard
            rw [if_neg (by simpa using hft), hseat]
            simp [endTurn, closeZapGracePeriod, DuoTaireState.updatePlayerByIndex, hft]
          rw [getPlayerByIndex_players _ _ s.currentPlayer hplayers]
          exact getPlayerByIndex_update s s.currentPlayer
            (fun q => q.addToDiscard card.clone) p (fun q => rfl) hseat

/-- C1 witness: the amended turn-ending contract evaluated on the concrete
room where seat 0 discards its drawn 7♥. -/
theorem c1_own_discard_witness :
    ∃ c, sDrawn7.drawnCard = some c ∧
      (handlePlayCard sDrawn7 "s0" mOwnDiscard 7).2.1.drawnCard = none ∧
      (handlePlayCard sDrawn7 "s0" mOwnDiscard 7).2.1.currentPlayer =
        1 - sDrawn7.currentPlayer ∧
      (handlePlayCard sDrawn7 "s0" mOwnDiscard 7).2.1.turnStartTime = 7 ∧
      (handlePlayCard sDrawn7 "s0" mOwnDiscard 7).2.1.zapGracePeriod = false ∧
      (handlePlayCard sDrawn7 "s0" mOwnDiscard 7).2.1.hasMovedThisTurn = true ∧
      (handlePlayCard sDrawn7 "s0" mOwnDiscard 7).2.1.getPlayerByIndex
          sDrawn7.currentPlayer =
        some (p0Base.addToDiscard c.clone) :=
  (c1_own_discard sDrawn7 "s0" p0Base mOwnDiscard 7 rfl (by decide) (by decide)
    (by decide) rfl).2.1 (by decide)

/-- C6 witness: the recycle-and-draw contract evaluated on the concrete
room where seat 0 holds an empty deck under a two-card discard. -/
theorem c6_draw_empty_deck_witness :
    (handleDrawCard sDrawRecycle "s0" 9).drawnCard =
      p0Recycle.discard.dropLast.getLast? ∧
    (handleDrawCard sDrawRecycle "s0" 9).stateVersion =
      sDrawRecycle.stateVersion + 1 ∧
    (handleDrawCard sDrawRecycle "s0" 9).getPlayerBySession "s0" =
      some { p0Recycle with
             deck := p0Recycle.discard.dropLast.dropLast,
             discard := p0Recycle.discard.getLast?.toList } :=
  (c6_draw_empty_deck sDrawRecycle "s0" p0Recycle 9 (by decide) (by decide)
    (by decide) (by decide)).2 (by decide)

end DuoTaire
